import Mathlib

/-
Verification of the hold-quota engine of the travel-booking backend
(`src/services/holdQuota.service.ts`), the only subsystem of the repository
with non-trivial invariants.  The service is embedded shallowly:

* Opaque string identifiers (schedule ids, hold ids, seat numbers, user ids)
  are modelled as natural numbers.
* JavaScript timestamps are modelled as integers counting minutes, so that
  `holdExpiry.setMinutes(holdExpiry.getMinutes() + m)` becomes `now + m`.
* Database rows live in a `DB` record: bus schedules (joined with their route
  and partner, which carry `totalSeats` and the hold-quota policy) as a map
  from schedule id, and `seatHold` rows as an association list so that the
  expiry sweeper can enumerate them.
* Prisma interactive transactions roll back on a thrown error; every
  transaction body is therefore a function into `Except String`, and the
  exported operation catches the error and returns the original database,
  exactly as the `try/catch` wrappers in the source return a failure value.
* JavaScript numbers are modelled as integers for counts and as rationals for
  the quota percentage (`parseFloat`).  Environment defaults use the fallback
  literals of the source: expiry 30 minutes, quota percentage 25.
-/

namespace HoldQuota

/-- Prisma enum `ScheduleStatus`; `holdSeats` only proceeds on `ACTIVE`. -/
inductive ScheduleStatus
  | ACTIVE
  | INACTIVE
  | CANCELLED
  deriving DecidableEq

/-- Per-seat state stored in the `seatStatus` JSON map of a bus schedule. -/
inductive SeatStatus
  | AVAILABLE
  | HELD
  | BOOKED
  deriving DecidableEq

/-- Prisma enum `HoldStatus` on `seatHold` rows. -/
inductive HoldStatus
  | ACTIVE
  | RELEASED
  | CONVERTED
  deriving DecidableEq

/-- The `reason` parameter of `releaseHold` in the source, a union of the
string literals EXPIRED, USER_CANCELLED and CONVERTED. -/
inductive ReleaseReason
  | EXPIRED
  | USER_CANCELLED
  | CONVERTED
  deriving DecidableEq

/-- Hold-quota policy fields of a `partner` row (`holdQuotaEnabled`,
`holdQuotaPercentage`, `holdExpiryMinutes`); the latter two are optional
numbers in the TypeScript types. -/
structure Partner where
  holdQuotaEnabled : Bool
  holdQuotaPercentage : Option ℚ
  holdExpiryMinutes : Option ℤ
  deriving DecidableEq

/-- A `busSchedule` row joined with its route and partner: `totalSeats`
denotes `route.totalSeats` and `partner` denotes `route.partner`, which is how
`isHoldQuotaAvailable` reads them. -/
structure BusSchedule where
  status : ScheduleStatus
  totalSeats : ℤ
  partner : Partner
  availableSeats : ℤ
  heldSeats : ℤ
  bookedSeats : ℤ
  seatStatus : ℕ → Option SeatStatus

/-- A `seatHold` row. -/
structure SeatHold where
  scheduleId : ℕ
  seatNumbers : List ℕ
  heldBy : ℕ
  holdExpiry : ℤ
  status : HoldStatus
  releasedAt : Option ℤ
  deriving DecidableEq

/-- The relevant slice of the database. -/
structure DB where
  schedules : ℕ → Option BusSchedule
  seatHolds : List (ℕ × SeatHold)
  nextHoldId : ℕ

/-- Source constant `DEFAULT_HOLD_EXPIRY_MINUTES` (environment fallback 30). -/
def DEFAULT_HOLD_EXPIRY_MINUTES : ℤ := 30

/-- Source constant `DEFAULT_HOLD_QUOTA_PERCENTAGE` (environment fallback 25). -/
def DEFAULT_HOLD_QUOTA_PERCENTAGE : ℚ := 25

/-- JavaScript `v || d` on an optional number: the default replaces both a
missing value and the falsy number 0. -/
def jsOrDefault (v : Option ℚ) (d : ℚ) : ℚ :=
  match v with
  | none => d
  | some q => if q = 0 then d else q

/-- Source `calculateMaxHolds`: `Math.floor((totalSeats * holdQuotaPercentage) / 100)`. -/
def calculateMaxHolds (totalSeats : ℤ) (holdQuotaPercentage : ℚ) : ℤ :=
  ⌊((totalSeats : ℚ) * holdQuotaPercentage) / 100⌋

/-- Return shape of `isHoldQuotaAvailable`. -/
structure QuotaCheck where
  available : Bool
  maxAllowed : ℤ
  currentHeld : ℤ
  deriving DecidableEq

/-- Source `isHoldQuotaAvailable`, `BUS` branch (the only branch `holdSeats`
implements; the flight branch of `holdSeats` throws an unimplemented-stub
error).  Throws on a missing schedule; returns `available = false` with zeroed
fields when the partner has `holdQuotaEnabled` off; otherwise compares
`currentHeld + requestedSeats` against the computed cap. -/
def isHoldQuotaAvailable (db : DB) (scheduleId : ℕ) (requestedSeats : ℤ) :
    Except String QuotaCheck :=
  match db.schedules scheduleId with
  | none => Except.error "Bus schedule not found"
  | some schedule =>
    if schedule.partner.holdQuotaEnabled = false then
      Except.ok { available := false, maxAllowed := 0, currentHeld := 0 }
    else
      let holdQuotaPercentage :=
        jsOrDefault schedule.partner.holdQuotaPercentage DEFAULT_HOLD_QUOTA_PERCENTAGE
      let maxAllowed := calculateMaxHolds schedule.totalSeats holdQuotaPercentage
      Except.ok
        { available := decide (schedule.heldSeats + requestedSeats ≤ maxAllowed)
          maxAllowed := maxAllowed
          currentHeld := schedule.heldSeats }

/-- First seat of the list whose status is not `AVAILABLE`, mirroring the
check loop of the `holdSeats` transaction (a missing key in the JSON map also
fails the check). -/
def firstUnavailableSeat (seatStatus : ℕ → Option SeatStatus) : List ℕ → Option ℕ
  | [] => none
  | s :: rest =>
    if seatStatus s ≠ some SeatStatus.AVAILABLE then some s
    else firstUnavailableSeat seatStatus rest

/-- Set every listed seat to the given status, mirroring the unguarded update
loops of `holdSeats` (to `HELD`) and `convertHoldToBooking` (to `BOOKED`). -/
def markSeats (seatStatus : ℕ → Option SeatStatus) (seats : List ℕ)
    (st : SeatStatus) : ℕ → Option SeatStatus :=
  seats.foldl (fun m s => fun k => if k = s then some st else m k) seatStatus

/-- Release loop of `releaseHold`: a seat is set back to `AVAILABLE` only when
it is currently `HELD`. -/
def releaseSeats (seatStatus : ℕ → Option SeatStatus) (seats : List ℕ) :
    ℕ → Option SeatStatus :=
  seats.foldl
    (fun m s =>
      if m s = some SeatStatus.HELD then fun k => if k = s then some SeatStatus.AVAILABLE else m k
      else m)
    seatStatus

/-- Look a hold row up by id. -/
def findHold (db : DB) (holdId : ℕ) : Option SeatHold :=
  db.seatHolds.lookup holdId

/-- Overwrite one schedule row. -/
def updateSchedule (db : DB) (scheduleId : ℕ) (s : BusSchedule) : DB :=
  { db with schedules := fun k => if k = scheduleId then some s else db.schedules k }

/-- Overwrite one hold row. -/
def updateHold (db : DB) (holdId : ℕ) (h : SeatHold) : DB :=
  { db with seatHolds := db.seatHolds.map (fun p => if p.1 = holdId then (p.1, h) else p) }

/-- Insert a fresh hold row, returning its generated id. -/
def createHold (db : DB) (h : SeatHold) : ℕ × DB :=
  (db.nextHoldId,
   { db with
     seatHolds := (db.nextHoldId, h) :: db.seatHolds
     nextHoldId := db.nextHoldId + 1 })

/-- Parameters of `holdSeats` (`HoldSeatsParams` in the source); the `BUS`
category is the implemented one and is the one modelled. -/
structure HoldSeatsParams where
  scheduleId : ℕ
  seatNumbers : List ℕ
  heldBy : ℕ
  holdExpiryMinutes : Option ℤ
  deriving DecidableEq

/-- Return shape of `holdSeats` (`HoldResult` in the source). -/
structure HoldResult where
  success : Bool
  holdId : Option ℕ
  seatNumbers : List ℕ
  holdExpiry : ℤ
  message : String
  deriving DecidableEq

/-- Body of the `prisma.$transaction` callback inside `holdSeats`: re-reads
the schedule, requires it to exist and be `ACTIVE`, requires every requested
seat to be `AVAILABLE`, then marks the seats `HELD`, moves the counts from
`availableSeats` to `heldSeats`, and creates the `ACTIVE` hold row.  A thrown
error rolls the transaction back. -/
def holdSeatsTx (db : DB) (scheduleId : ℕ) (seatNumbers : List ℕ) (heldBy : ℕ)
    (holdExpiry : ℤ) : Except String (ℕ × DB) :=
  match db.schedules scheduleId with
  | none => Except.error "Schedule not available"
  | some schedule =>
    if schedule.status ≠ ScheduleStatus.ACTIVE then Except.error "Schedule not available"
    else
      match firstUnavailableSeat schedule.seatStatus seatNumbers with
      | some seat => Except.error ("Seat " ++ toString seat ++ " is not available")
      | none =>
        let n : ℤ := seatNumbers.length
        let db1 := updateSchedule db scheduleId
          { schedule with
            seatStatus := markSeats schedule.seatStatus seatNumbers SeatStatus.HELD
            heldSeats := schedule.heldSeats + n
            availableSeats := schedule.availableSeats - n }
        Except.ok (createHold db1
          { scheduleId := scheduleId
            seatNumbers := seatNumbers
            heldBy := heldBy
            holdExpiry := holdExpiry
            status := HoldStatus.ACTIVE
            releasedAt := none })

/-- Continuation of `holdSeats` after the quota check: the source performs
`await isHoldQuotaAvailable(...)` as a separate database interaction BEFORE
opening the transaction, so the check result is a parameter here; `holdSeats`
below instantiates it with a check against the same state, and the concurrency
analysis instantiates it with a check against an earlier state.  All failure
paths (quota result, thrown check error, thrown transaction error) produce a
`success = false` result with the caught message and leave the database as it
was, mirroring the `try/catch` of the source. -/
def holdSeatsAfterCheck (db : DB) (now : ℤ) (params : HoldSeatsParams)
    (quotaCheckResult : Except String QuotaCheck) : HoldResult × DB :=
  match quotaCheckResult with
  | Except.error msg =>
    ({ success := false, holdId := none, seatNumbers := params.seatNumbers,
       holdExpiry := now, message := msg }, db)
  | Except.ok quotaCheck =>
    if quotaCheck.available = false then
      ({ success := false, holdId := none, seatNumbers := params.seatNumbers,
         holdExpiry := now,
         message := "Hold quota exceeded. Max allowed: " ++ toString quotaCheck.maxAllowed
           ++ ", Currently held: " ++ toString quotaCheck.currentHeld }, db)
    else
      let holdExpiry := now + params.holdExpiryMinutes.getD DEFAULT_HOLD_EXPIRY_MINUTES
      match holdSeatsTx db params.scheduleId params.seatNumbers params.heldBy holdExpiry with
      | Except.error msg =>
        ({ success := false, holdId := none, seatNumbers := params.seatNumbers,
           holdExpiry := now, message := msg }, db)
      | Except.ok (holdId, db2) =>
        ({ success := true, holdId := some holdId, seatNumbers := params.seatNumbers,
           holdExpiry := holdExpiry, message := "Seats held successfully" }, db2)

/-- Source `holdSeats`: quota check first, then the transactional hold. -/
def holdSeats (db : DB) (now : ℤ) (params : HoldSeatsParams) : HoldResult × DB :=
  holdSeatsAfterCheck db now params
    (isHoldQuotaAvailable db params.scheduleId (params.seatNumbers.length : ℤ))

/-- Body of the `prisma.$transaction` callback inside `releaseHold`: requires
the hold to exist and be `ACTIVE`; if the schedule row is found, flips the
covered `HELD` seats back to `AVAILABLE` and moves the counts from `heldSeats`
to `availableSeats`; finally stamps the hold `RELEASED` (or `CONVERTED` when
called with that reason) with `releasedAt = now`. -/
def releaseHoldTx (db : DB) (now : ℤ) (holdId : ℕ) (reason : ReleaseReason) :
    Except String DB :=
  match findHold db holdId with
  | none => Except.error "Hold not found or already released"
  | some hold =>
    if hold.status ≠ HoldStatus.ACTIVE then Except.error "Hold not found or already released"
    else
      let db1 :=
        match db.schedules hold.scheduleId with
        | none => db
        | some schedule =>
          let n : ℤ := hold.seatNumbers.length
          updateSchedule db hold.scheduleId
            { schedule with
              seatStatus := releaseSeats schedule.seatStatus hold.seatNumbers
              heldSeats := schedule.heldSeats - n
              availableSeats := schedule.availableSeats + n }
      let newStatus :=
        if reason = ReleaseReason.CONVERTED then HoldStatus.CONVERTED else HoldStatus.RELEASED
      Except.ok (updateHold db1 holdId { hold with status := newStatus, releasedAt := some now })

/-- Source `releaseHold`: transactional release wrapped in `try/catch`,
returning a bare boolean and leaving the database untouched on failure. -/
def releaseHold (db : DB) (now : ℤ) (holdId : ℕ) (reason : ReleaseReason) : Bool × DB :=
  match releaseHoldTx db now holdId reason with
  | Except.error _ => (false, db)
  | Except.ok db2 => (true, db2)

/-- Body of the `prisma.$transaction` callback inside `convertHoldToBooking`:
requires the hold to exist and be `ACTIVE`, stamps it `CONVERTED` with
`releasedAt = now`, then (when the schedule row is found) marks every covered
seat `BOOKED` and moves the counts from `heldSeats` to `bookedSeats`. -/
def convertHoldToBookingTx (db : DB) (now : ℤ) (holdId : ℕ) : Except String DB :=
  match findHold db holdId with
  | none => Except.error "Hold not found or not active"
  | some hold =>
    if hold.status ≠ HoldStatus.ACTIVE then Except.error "Hold not found or not active"
    else
      let db1 := updateHold db holdId
        { hold with status := HoldStatus.CONVERTED, releasedAt := some now }
      match db1.schedules hold.scheduleId with
      | none => Except.ok db1
      | some schedule =>
        let n : ℤ := hold.seatNumbers.length
        Except.ok (updateSchedule db1 hold.scheduleId
          { schedule with
            seatStatus := markSeats schedule.seatStatus hold.seatNumbers SeatStatus.BOOKED
            heldSeats := schedule.heldSeats - n
            bookedSeats := schedule.bookedSeats + n })

/-- Source `convertHoldToBooking`: transactional conversion wrapped in
`try/catch`; the booking id is only logged, never written to inventory. -/
def convertHoldToBooking (db : DB) (now : ℤ) (holdId : ℕ) (bookingId : ℕ) : Bool × DB :=
  match convertHoldToBookingTx db now holdId with
  | Except.error _ => (false, db)
  | Except.ok db2 => (true, db2)

/-- Selection predicate of the sweeper query:
`{ status: ACTIVE, holdExpiry: { lt: new Date() } }` — note the strict
less-than. -/
def isExpiredActive (now : ℤ) (p : ℕ × SeatHold) : Bool :=
  decide (p.2.status = HoldStatus.ACTIVE) && decide (p.2.holdExpiry < now)

/-- One iteration of the sweeper loop: attempt the release and count it only
when it succeeded. -/
def sweepStep (now : ℤ) (acc : ℕ × DB) (p : ℕ × SeatHold) : ℕ × DB :=
  let r := releaseHold acc.2 now p.1 ReleaseReason.EXPIRED
  (if r.1 then acc.1 + 1 else acc.1, r.2)

/-- Source `releaseExpiredHolds`: select the expired `ACTIVE` holds, call
`releaseHold(id, EXPIRED)` on each in turn regardless of earlier outcomes, and
return how many succeeded. -/
def releaseExpiredHolds (db : DB) (now : ℤ) : ℕ × DB :=
  (db.seatHolds.filter (isExpiredActive now)).foldl (sweepStep now) (0, db)

/-- The count bookkeeping invariant of one schedule row. -/
def goodCounts (s : BusSchedule) : Prop :=
  s.availableSeats + s.heldSeats + s.bookedSeats = s.totalSeats

/-- Every schedule row of the database satisfies the count invariant. -/
def Inv (db : DB) : Prop :=
  ∀ sid s, db.schedules sid = some s → goodCounts s

/-- One public Hold Manager operation (or one sweeper run) applied to the
database. -/
inductive Step : DB → DB → Prop
  | hold (db : DB) (now : ℤ) (params : HoldSeatsParams) :
      Step db (holdSeats db now params).2
  | release (db : DB) (now : ℤ) (holdId : ℕ) (reason : ReleaseReason) :
      Step db (releaseHold db now holdId reason).2
  | convert (db : DB) (now : ℤ) (holdId : ℕ) (bookingId : ℕ) :
      Step db (convertHoldToBooking db now holdId bookingId).2
  | sweep (db : DB) (now : ℤ) :
      Step db (releaseExpiredHolds db now).2

/-- States reachable from an initial database through Hold Manager
operations. -/
inductive Reachable (db0 : DB) : DB → Prop
  | refl : Reachable db0 db0
  | step {db1 db2 : DB} : Reachable db0 db1 → Step db1 db2 → Reachable db0 db2

/-
Concrete fixtures used by counterexamples and witnesses.
-/

/-- A partner with holds enabled, a 25 percent quota and a configured
60-minute hold expiry. -/
def partnerBus : Partner :=
  { holdQuotaEnabled := true, holdQuotaPercentage := some 25, holdExpiryMinutes := some 60 }

/-- A partner whose policy disables holds. -/
def partnerDisabled : Partner :=
  { holdQuotaEnabled := false, holdQuotaPercentage := some 25, holdExpiryMinutes := some 60 }

/-- A partner with holds enabled and a configured quota percentage of 0. -/
def partnerZeroPct : Partner :=
  { holdQuotaEnabled := true, holdQuotaPercentage := some 0, holdExpiryMinutes := none }

/-- Seat map with seats 1..n available. -/
def seatMapAvail (n : ℕ) : ℕ → Option SeatStatus :=
  fun k => if 1 ≤ k ∧ k ≤ n then some SeatStatus.AVAILABLE else none

/-- An active 4-seat schedule, nothing held or booked (maxHoldable = 1 at a
25 percent quota). -/
def schedFour : BusSchedule :=
  { status := ScheduleStatus.ACTIVE, totalSeats := 4, partner := partnerBus,
    availableSeats := 4, heldSeats := 0, bookedSeats := 0, seatStatus := seatMapAvail 4 }

/-- Database holding only `schedFour` under schedule id 0. -/
def dbFour : DB :=
  { schedules := fun k => if k = 0 then some schedFour else none, seatHolds := [], nextHoldId := 0 }

/-- A hold request for one given seat of schedule 0, without an expiry
override. -/
def reqSeat (s : ℕ) : HoldSeatsParams :=
  { scheduleId := 0, seatNumbers := [s], heldBy := 9, holdExpiryMinutes := none }

/-- A 100-seat schedule owned by the zero-percentage partner. -/
def schedZeroPct : BusSchedule :=
  { status := ScheduleStatus.ACTIVE, totalSeats := 100, partner := partnerZeroPct,
    availableSeats := 100, heldSeats := 0, bookedSeats := 0, seatStatus := seatMapAvail 100 }

/-- Database holding only `schedZeroPct` under schedule id 0. -/
def dbZeroPct : DB :=
  { schedules := fun k => if k = 0 then some schedZeroPct else none, seatHolds := [], nextHoldId := 0 }

/-- A 100-seat schedule owned by the hold-disabled partner. -/
def schedDisabled : BusSchedule :=
  { status := ScheduleStatus.ACTIVE, totalSeats := 100, partner := partnerDisabled,
    availableSeats := 100, heldSeats := 0, bookedSeats := 0, seatStatus := seatMapAvail 100 }

/-- Database holding only `schedDisabled` under schedule id 0. -/
def dbDisabled : DB :=
  { schedules := fun k => if k = 0 then some schedDisabled else none, seatHolds := [], nextHoldId := 0 }

/-- An empty 0-seat schedule with holds enabled: its quota cap is 0, so any
request is a genuine quota-exceeded failure. -/
def schedZeroTotal : BusSchedule :=
  { status := ScheduleStatus.ACTIVE, totalSeats := 0, partner := partnerBus,
    availableSeats := 0, heldSeats := 0, bookedSeats := 0, seatStatus := fun _ => none }

/-- Database holding only `schedZeroTotal` under schedule id 0. -/
def dbZeroTotal : DB :=
  { schedules := fun k => if k = 0 then some schedZeroTotal else none, seatHolds := [], nextHoldId := 0 }

/-- A schedule with seat 1 held and a matching count split 3/1/0. -/
def schedWithHeld : BusSchedule :=
  { status := ScheduleStatus.ACTIVE, totalSeats := 4, partner := partnerBus,
    availableSeats := 3, heldSeats := 1, bookedSeats := 0,
    seatStatus := fun k => if k = 1 then some SeatStatus.HELD else seatMapAvail 4 k }

/-- An active hold on seat 1 of schedule 0, expiring at time 100. -/
def holdOne : SeatHold :=
  { scheduleId := 0, seatNumbers := [1], heldBy := 9, holdExpiry := 100,
    status := HoldStatus.ACTIVE, releasedAt := none }

/-- Database with `schedWithHeld` and the single active hold `holdOne` under
hold id 0. -/
def dbWithHold : DB :=
  { schedules := fun k => if k = 0 then some schedWithHeld else none,
    seatHolds := [(0, holdOne)], nextHoldId := 1 }

/-- A database with no rows at all. -/
def dbEmpty : DB :=
  { schedules := fun _ => none, seatHolds := [], nextHoldId := 0 }

/-- The schedule row produced by releasing `holdOne` against
`schedWithHeld`. -/
def schedReleased : BusSchedule :=
  { status := ScheduleStatus.ACTIVE, totalSeats := 4, partner := partnerBus,
    availableSeats := 4, heldSeats := 0, bookedSeats := 0,
    seatStatus := releaseSeats schedWithHeld.seatStatus (1 :: List.nil) }

/-
Evaluation lemmas: the kernel cannot reduce rational arithmetic, so the floor
computation of `calculateMaxHolds` is bridged to integer division once and
evaluated through it.
-/

theorem calculateMaxHolds_intCast (t p : ℤ) :
    calculateMaxHolds t ((p : ℚ)) = t * p / 100 := by
  unfold calculateMaxHolds
  rw [show ((t : ℚ) * (p : ℚ)) = ((t * p : ℤ) : ℚ) by push_cast; ring]
  rw [show (100 : ℚ) = ((100 : ℕ) : ℚ) by norm_num]
  rw [Rat.floor_intCast_div_natCast]
  norm_num

theorem calculateMaxHolds_4_25 : calculateMaxHolds 4 25 = 1 := by
  rw [show (25 : ℚ) = ((25 : ℤ) : ℚ) by norm_num, calculateMaxHolds_intCast]
  decide

theorem calculateMaxHolds_100_25 : calculateMaxHolds 100 25 = 25 := by
  rw [show (25 : ℚ) = ((25 : ℤ) : ℚ) by norm_num, calculateMaxHolds_intCast]
  decide

theorem calculateMaxHolds_100_0 : calculateMaxHolds 100 0 = 0 := by
  rw [show (0 : ℚ) = ((0 : ℤ) : ℚ) by norm_num, calculateMaxHolds_intCast]
  decide

theorem calculateMaxHolds_0_25 : calculateMaxHolds 0 25 = 0 := by
  rw [show (25 : ℚ) = ((25 : ℤ) : ℚ) by norm_num, calculateMaxHolds_intCast]
  decide

theorem jsOrDefault_some25 :
    jsOrDefault (some 25) DEFAULT_HOLD_QUOTA_PERCENTAGE = 25 := by
  simp [jsOrDefault]

theorem jsOrDefault_some0 :
    jsOrDefault (some 0) DEFAULT_HOLD_QUOTA_PERCENTAGE = DEFAULT_HOLD_QUOTA_PERCENTAGE := by
  simp [jsOrDefault]

theorem q25_nonneg : (0 : ℚ) ≤ 25 := by norm_num

theorem q25_le_100 : (25 : ℚ) ≤ 100 := by norm_num

/-- C3: for all integer totalSeats at least 0 and percentages between 0 and
100, `calculateMaxHolds` equals the floor of totalSeats times the percentage
over 100, and is at most totalSeats; the function is a pure total function of
its two arguments. -/
theorem calculateMaxHolds_spec (totalSeats : ℤ) (pct : ℚ)
    (ht : 0 ≤ totalSeats) (hp0 : 0 ≤ pct) (hp1 : pct ≤ 100) :
    calculateMaxHolds totalSeats pct = ⌊((totalSeats : ℚ) * pct) / 100⌋ ∧
    calculateMaxHolds totalSeats pct ≤ totalSeats := by
  refine ⟨rfl, ?_⟩
  unfold calculateMaxHolds
  have ht2 : (0 : ℚ) ≤ (totalSeats : ℚ) := by exact_mod_cast ht
  have h1 : ((totalSeats : ℚ) * pct) / 100 ≤ (totalSeats : ℚ) := by
    rw [div_le_iff (by norm_num : (0 : ℚ) < 100)]
    exact mul_le_mul_of_nonneg_left hp1 ht2
  calc ⌊((totalSeats : ℚ) * pct) / 100⌋ ≤ ⌊(totalSeats : ℚ)⌋ := Int.floor_le_floor h1
    _ = totalSeats := Int.floor_intCast totalSeats

/-- Witness for C3 at totalSeats = 100, pct = 25. -/
theorem calculateMaxHolds_spec_witness :
    calculateMaxHolds 100 25 = ⌊(((100 : ℤ) : ℚ) * 25) / 100⌋ ∧
    calculateMaxHolds 100 25 ≤ 100 :=
  calculateMaxHolds_spec 100 25 (by decide) q25_nonneg q25_le_100

/-
Characterizations of the successful transaction bodies, shared by several
claims below.
-/

theorem holdSeatsTx_ok_spec (db : DB) (sid : ℕ) (seats : List ℕ) (hb : ℕ) (he : ℤ)
    (hid : ℕ) (db2 : DB)
    (h : holdSeatsTx db sid seats hb he = Except.ok (hid, db2)) :
    ∃ schedule, db.schedules sid = some schedule ∧
      schedule.status = ScheduleStatus.ACTIVE ∧
      firstUnavailableSeat schedule.seatStatus seats = none ∧
      hid = db.nextHoldId ∧
      db2.schedules sid = some
        { schedule with
          seatStatus := markSeats schedule.seatStatus seats SeatStatus.HELD
          heldSeats := schedule.heldSeats + (seats.length : ℤ)
          availableSeats := schedule.availableSeats - (seats.length : ℤ) } ∧
      (∀ k, k ≠ sid → db2.schedules k = db.schedules k) ∧
      db2.seatHolds = (db.nextHoldId,
        { scheduleId := sid, seatNumbers := seats, heldBy := hb, holdExpiry := he,
          status := HoldStatus.ACTIVE, releasedAt := none }) :: db.seatHolds ∧
      db2.nextHoldId = db.nextHoldId + 1 := by
  simp only [holdSeatsTx] at h
  split at h
  · exact Except.noConfusion h
  next schedule hs =>
    split at h
    · exact Except.noConfusion h
    next hst =>
      split at h
      · exact Except.noConfusion h
      next hfu =>
        rw [Except.ok.injEq] at h
        have hfst := congrArg Prod.fst h
        have hsnd := congrArg Prod.snd h
        simp only [createHold, updateSchedule] at hfst hsnd
        refine ⟨schedule, hs, not_not.mp hst, hfu, hfst.symm, ?_, ?_, ?_, ?_⟩
        · rw [← hsnd]
          simp
        · intro k hk
          rw [← hsnd]
          simp [hk]
        · rw [← hsnd]
        · rw [← hsnd]

theorem releaseHoldTx_ok_spec (db : DB) (now : ℤ) (holdId : ℕ) (reason : ReleaseReason)
    (db2 : DB) (h : releaseHoldTx db now holdId reason = Except.ok db2) :
    ∃ hold, findHold db holdId = some hold ∧ hold.status = HoldStatus.ACTIVE ∧
      db2.seatHolds = db.seatHolds.map (fun p => if p.1 = holdId then
        (p.1, { hold with
          status := if reason = ReleaseReason.CONVERTED then HoldStatus.CONVERTED
            else HoldStatus.RELEASED
          releasedAt := some now }) else p) ∧
      db2.nextHoldId = db.nextHoldId ∧
      ((db.schedules hold.scheduleId = none ∧ ∀ k, db2.schedules k = db.schedules k) ∨
       (∃ s, db.schedules hold.scheduleId = some s ∧
          db2.schedules hold.scheduleId = some
            { s with
              seatStatus := releaseSeats s.seatStatus hold.seatNumbers
              heldSeats := s.heldSeats - (hold.seatNumbers.length : ℤ)
              availableSeats := s.availableSeats + (hold.seatNumbers.length : ℤ) } ∧
          (∀ k, k ≠ hold.scheduleId → db2.schedules k = db.schedules k))) := by
  simp only [releaseHoldTx] at h
  split at h
  · exact Except.noConfusion h
  next hold hh =>
    split at h
    · exact Except.noConfusion h
    next hst =>
      rw [Except.ok.injEq] at h
      refine ⟨hold, hh, not_not.mp hst, ?_, ?_, ?_⟩
      · rw [← h]
        cases hs : db.schedules hold.scheduleId <;> simp [hs, updateHold, updateSchedule]
      · rw [← h]
        cases hs : db.schedules hold.scheduleId <;> simp [hs, updateHold, updateSchedule]
      · cases hs : db.schedules hold.scheduleId with
        | none =>
          left
          refine ⟨rfl, ?_⟩
          intro k
          rw [← h]
          simp [hs, updateHold]
        | some s =>
          right
          refine ⟨s, rfl, ?_, ?_⟩
          · rw [← h]
            simp [hs, updateHold, updateSchedule]
          · intro k hk
            rw [← h]
            simp [hs, updateHold, updateSchedule, hk]

theorem convertHoldToBookingTx_ok_spec (db : DB) (now : ℤ) (holdId : ℕ)
    (db2 : DB) (h : convertHoldToBookingTx db now holdId = Except.ok db2) :
    ∃ hold, findHold db holdId = some hold ∧ hold.status = HoldStatus.ACTIVE ∧
      db2.seatHolds = db.seatHolds.map (fun p => if p.1 = holdId then
        (p.1, { hold with status := HoldStatus.CONVERTED, releasedAt := some now }) else p) ∧
      db2.nextHoldId = db.nextHoldId ∧
      ((db.schedules hold.scheduleId = none ∧ ∀ k, db2.schedules k = db.schedules k) ∨
       (∃ s, db.schedules hold.scheduleId = some s ∧
          db2.schedules hold.scheduleId = some
            { s with
              seatStatus := markSeats s.seatStatus hold.seatNumbers SeatStatus.BOOKED
              heldSeats := s.heldSeats - (hold.seatNumbers.length : ℤ)
              bookedSeats := s.bookedSeats + (hold.seatNumbers.length : ℤ) } ∧
          (∀ k, k ≠ hold.scheduleId → db2.schedules k = db.schedules k))) := by
  simp only [convertHoldToBookingTx] at h
  split at h
  · exact Except.noConfusion h
  next hold hh =>
    split at h
    · exact Except.noConfusion h
    next hst =>
      split at h
      next hs =>
        rw [Except.ok.injEq] at h
        refine ⟨hold, hh, not_not.mp hst, ?_, ?_, ?_⟩
        · rw [← h]; simp [updateHold]
        · rw [← h]; simp [updateHold]
        · left
          refine ⟨by simpa [updateHold] using hs, ?_⟩
          intro k
          rw [← h]
          simp [updateHold]
      next s hs =>
        rw [Except.ok.injEq] at h
        refine ⟨hold, hh, not_not.mp hst, ?_, ?_, ?_⟩
        · rw [← h]; simp [updateHold, updateSchedule]
        · rw [← h]; simp [updateHold, updateSchedule]
        · right
          refine ⟨s, by simpa [updateHold] using hs, ?_, ?_⟩
          · rw [← h]
            simp [updateHold, updateSchedule]
          · intro k hk
            rw [← h]
            simp [updateHold, updateSchedule, hk]

/-
Outcome case splits for the three public operations.
-/

theorem holdSeats_cases (db : DB) (now : ℤ) (params : HoldSeatsParams) :
    ((holdSeats db now params).1.success = false ∧ (holdSeats db now params).2 = db) ∨
    ((holdSeats db now params).1.success = true ∧
     ∃ hid, (holdSeats db now params).1.holdId = some hid ∧
       (holdSeats db now params).1.holdExpiry =
         now + params.holdExpiryMinutes.getD DEFAULT_HOLD_EXPIRY_MINUTES ∧
       holdSeatsTx db params.scheduleId params.seatNumbers params.heldBy
         (now + params.holdExpiryMinutes.getD DEFAULT_HOLD_EXPIRY_MINUTES) =
         Except.ok (hid, (holdSeats db now params).2)) := by
  unfold holdSeats holdSeatsAfterCheck
  cases hq : isHoldQuotaAvailable db params.scheduleId ((params.seatNumbers.length : ℤ)) with
  | error msg => left; exact ⟨rfl, rfl⟩
  | ok qc =>
    by_cases ha : qc.available = false
    · left
      simp [ha]
    · simp only [ha, if_false]
      cases htx : holdSeatsTx db params.scheduleId params.seatNumbers params.heldBy
          (now + params.holdExpiryMinutes.getD DEFAULT_HOLD_EXPIRY_MINUTES) with
      | error msg => left; exact ⟨rfl, rfl⟩
      | ok p =>
        obtain ⟨hid, db2⟩ := p
        right
        exact ⟨rfl, hid, rfl, rfl, rfl⟩

theorem releaseHold_cases (db : DB) (now : ℤ) (holdId : ℕ) (reason : ReleaseReason) :
    ((releaseHold db now holdId reason).1 = false ∧ (releaseHold db now holdId reason).2 = db) ∨
    ((releaseHold db now holdId reason).1 = true ∧
     releaseHoldTx db now holdId reason = Except.ok (releaseHold db now holdId reason).2) := by
  unfold releaseHold
  cases htx : releaseHoldTx db now holdId reason with
  | error msg => left; exact ⟨rfl, rfl⟩
  | ok db2 => right; exact ⟨rfl, rfl⟩

theorem convertHoldToBooking_cases (db : DB) (now : ℤ) (holdId : ℕ) (bookingId : ℕ) :
    ((convertHoldToBooking db now holdId bookingId).1 = false ∧
     (convertHoldToBooking db now holdId bookingId).2 = db) ∨
    ((convertHoldToBooking db now holdId bookingId).1 = true ∧
     convertHoldToBookingTx db now holdId =
       Except.ok (convertHoldToBooking db now holdId bookingId).2) := by
  unfold convertHoldToBooking
  cases htx : convertHoldToBookingTx db now holdId with
  | error msg => left; exact ⟨rfl, rfl⟩
  | ok db2 => right; exact ⟨rfl, rfl⟩

/-
Preservation of the count invariant by every operation.
-/

theorem Inv_holdSeats (db : DB) (now : ℤ) (params : HoldSeatsParams) (hInv : Inv db) :
    Inv (holdSeats db now params).2 := by
  rcases holdSeats_cases db now params with ⟨_, h2⟩ | ⟨_, hid, _, _, htx⟩
  · rw [h2]; exact hInv
  · obtain ⟨schedule, hs, _, _, _, hsid, hother, _, _⟩ :=
      holdSeatsTx_ok_spec _ _ _ _ _ _ _ htx
    intro k t hk
    by_cases hks : k = params.scheduleId
    · subst hks
      rw [hsid] at hk
      injection hk with hk
      subst hk
      have hg := hInv _ schedule hs
      unfold goodCounts at hg ⊢
      simp only
      linarith
    · rw [hother k hks] at hk
      exact hInv k t hk

theorem Inv_releaseHold (db : DB) (now : ℤ) (holdId : ℕ) (reason : ReleaseReason)
    (hInv : Inv db) : Inv (releaseHold db now holdId reason).2 := by
  rcases releaseHold_cases db now holdId reason with ⟨_, h2⟩ | ⟨_, htx⟩
  · rw [h2]; exact hInv
  · obtain ⟨hold, _, _, _, _, hsched⟩ := releaseHoldTx_ok_spec _ _ _ _ _ htx
    rcases hsched with ⟨_, hall⟩ | ⟨s, hs, hsid, hother⟩
    · intro k t hk
      rw [hall k] at hk
      exact hInv k t hk
    · intro k t hk
      by_cases hks : k = hold.scheduleId
      · subst hks
        rw [hsid] at hk
        injection hk with hk
        subst hk
        have hg := hInv _ s hs
        unfold goodCounts at hg ⊢
        simp only
        linarith
      · rw [hother k hks] at hk
        exact hInv k t hk

theorem Inv_convertHoldToBooking (db : DB) (now : ℤ) (holdId : ℕ) (bookingId : ℕ)
    (hInv : Inv db) : Inv (convertHoldToBooking db now holdId bookingId).2 := by
  rcases convertHoldToBooking_cases db now holdId bookingId with ⟨_, h2⟩ | ⟨_, htx⟩
  · rw [h2]; exact hInv
  · obtain ⟨hold, _, _, _, _, hsched⟩ := convertHoldToBookingTx_ok_spec _ _ _ _ htx
    rcases hsched with ⟨_, hall⟩ | ⟨s, hs, hsid, hother⟩
    · intro k t hk
      rw [hall k] at hk
      exact hInv k t hk
    · intro k t hk
      by_cases hks : k = hold.scheduleId
      · subst hks
        rw [hsid] at hk
        injection hk with hk
        subst hk
        have hg := hInv _ s hs
        unfold goodCounts at hg ⊢
        simp only
        linarith
      · rw [hother k hks] at hk
        exact hInv k t hk

theorem Inv_sweep_fold (now : ℤ) (l : List (ℕ × SeatHold)) :
    ∀ acc : ℕ × DB, Inv acc.2 → Inv (l.foldl (sweepStep now) acc).2 := by
  induction l with
  | nil => intro acc h; exact h
  | cons p t ih =>
    intro acc h
    exact ih _ (Inv_releaseHold acc.2 now p.1 ReleaseReason.EXPIRED h)

theorem Inv_releaseExpiredHolds (db : DB) (now : ℤ) (hInv : Inv db) :
    Inv (releaseExpiredHolds db now).2 :=
  Inv_sweep_fold now _ (0, db) hInv

theorem Inv_step {db1 db2 : DB} (h : Step db1 db2) (hInv : Inv db1) : Inv db2 := by
  cases h with
  | hold now params => exact Inv_holdSeats db1 now params hInv
  | release now holdId reason => exact Inv_releaseHold db1 now holdId reason hInv
  | convert now holdId bookingId => exact Inv_convertHoldToBooking db1 now holdId bookingId hInv
  | sweep now => exact Inv_releaseExpiredHolds db1 now hInv

/-- C1: each Hold Manager operation moves the inventory counts as a pure
transfer (hold: available to held; release: held back to available; convert:
held to booked) with total and the untouched counter unchanged, so the
equality availableSeats + heldSeats + bookedSeats = totalSeats holds in every
state reachable from a state satisfying it. -/
theorem holdManager_inventory_sum_invariant :
    (∀ db now params r db2 s s2,
       holdSeats db now params = (r, db2) → r.success = true →
       db.schedules params.scheduleId = some s →
       db2.schedules params.scheduleId = some s2 →
       s2.availableSeats = s.availableSeats - (params.seatNumbers.length : ℤ) ∧
       s2.heldSeats = s.heldSeats + (params.seatNumbers.length : ℤ) ∧
       s2.bookedSeats = s.bookedSeats ∧ s2.totalSeats = s.totalSeats) ∧
    (∀ db now holdId reason b db2 hold s s2,
       releaseHold db now holdId reason = (b, db2) → b = true →
       findHold db holdId = some hold →
       db.schedules hold.scheduleId = some s →
       db2.schedules hold.scheduleId = some s2 →
       s2.availableSeats = s.availableSeats + (hold.seatNumbers.length : ℤ) ∧
       s2.heldSeats = s.heldSeats - (hold.seatNumbers.length : ℤ) ∧
       s2.bookedSeats = s.bookedSeats ∧ s2.totalSeats = s.totalSeats) ∧
    (∀ db now holdId bookingId b db2 hold s s2,
       convertHoldToBooking db now holdId bookingId = (b, db2) → b = true →
       findHold db holdId = some hold →
       db.schedules hold.scheduleId = some s →
       db2.schedules hold.scheduleId = some s2 →
       s2.bookedSeats = s.bookedSeats + (hold.seatNumbers.length : ℤ) ∧
       s2.heldSeats = s.heldSeats - (hold.seatNumbers.length : ℤ) ∧
       s2.availableSeats = s.availableSeats ∧ s2.totalSeats = s.totalSeats) ∧
    (∀ db0 db, Inv db0 → Reachable db0 db → Inv db) := by
  refine ⟨?_, ?_, ?_, ?_⟩
  · intro db now params r db2 s s2 h hsucc hs hs2
    rcases holdSeats_cases db now params with ⟨hf, _⟩ | ⟨_, hid, _, _, htx⟩
    · rw [h] at hf; rw [hsucc] at hf; exact absurd hf (by simp)
    · rw [h] at htx
      obtain ⟨schedule, hs2a, _, _, _, hsid, _, _, _⟩ :=
        holdSeatsTx_ok_spec _ _ _ _ _ _ _ htx
      rw [hs] at hs2a
      injection hs2a with hs2a
      subst hs2a
      rw [hsid] at hs2
      injection hs2 with hs2
      subst hs2
      exact ⟨rfl, rfl, rfl, rfl⟩
  · intro db now holdId reason b db2 hold s s2 h hb hh hs hs2
    rcases releaseHold_cases db now holdId reason with ⟨hf, _⟩ | ⟨_, htx⟩
    · rw [h] at hf; rw [hb] at hf; exact absurd hf (by simp)
    · rw [h] at htx
      obtain ⟨hold2, hh2, _, _, _, hsched⟩ := releaseHoldTx_ok_spec _ _ _ _ _ htx
      rw [hh] at hh2
      injection hh2 with hh2
      subst hh2
      rcases hsched with ⟨hnone, _⟩ | ⟨t, ht, hsid, _⟩
      · rw [hs] at hnone; exact Option.noConfusion hnone
      · rw [hs] at ht
        injection ht with ht
        subst ht
        rw [hsid] at hs2
        injection hs2 with hs2
        subst hs2
        exact ⟨rfl, rfl, rfl, rfl⟩
  · intro db now holdId bookingId b db2 hold s s2 h hb hh hs hs2
    rcases convertHoldToBooking_cases db now holdId bookingId with ⟨hf, _⟩ | ⟨_, htx⟩
    · rw [h] at hf; rw [hb] at hf; exact absurd hf (by simp)
    · rw [h] at htx
      obtain ⟨hold2, hh2, _, _, _, hsched⟩ := convertHoldToBookingTx_ok_spec _ _ _ _ htx
      rw [hh] at hh2
      injection hh2 with hh2
      subst hh2
      rcases hsched with ⟨hnone, _⟩ | ⟨t, ht, hsid, _⟩
      · rw [hs] at hnone; exact Option.noConfusion hnone
      · rw [hs] at ht
        injection ht with ht
        subst ht
        rw [hsid] at hs2
        injection hs2 with hs2
        subst hs2
        exact ⟨rfl, rfl, rfl, rfl⟩
  · intro db0 db hInv hr
    induction hr with
    | refl => exact hInv
    | step _ hstep ih => exact Inv_step hstep ih

/-- Witness for C1: releasing the concrete active hold of `dbWithHold` moves
its one seat from held back to available. -/
theorem holdManager_inventory_sum_invariant_witness :
    schedReleased.availableSeats = schedWithHeld.availableSeats + (holdOne.seatNumbers.length : ℤ) ∧
    schedReleased.heldSeats = schedWithHeld.heldSeats - (holdOne.seatNumbers.length : ℤ) ∧
    schedReleased.bookedSeats = schedWithHeld.bookedSeats ∧
    schedReleased.totalSeats = schedWithHeld.totalSeats :=
  holdManager_inventory_sum_invariant.2.1 dbWithHold 200 0 ReleaseReason.EXPIRED
    true (releaseHold dbWithHold 200 0 ReleaseReason.EXPIRED).2 holdOne schedWithHeld
    schedReleased rfl rfl rfl rfl rfl

/-
Association-list and seat-map lemmas.
-/

theorem lookup_map_update_same (l : List (ℕ × SeatHold)) (hid : ℕ) (v w : SeatHold)
    (h : l.lookup hid = some w) :
    (l.map (fun p => if p.1 = hid then (p.1, v) else p)).lookup hid = some v := by
  induction l with
  | nil => simp [List.lookup] at h
  | cons p t ih =>
    obtain ⟨a, b⟩ := p
    by_cases ha : a = hid
    · subst ha
      simp [List.lookup_cons]
    · have hba : (hid == a) = false := by simp [Ne.symm ha]
      simp only [List.map_cons, List.lookup_cons, hba, ha, if_false, if_neg ha] at h ⊢
      exact ih h

theorem lookup_map_update_other (l : List (ℕ × SeatHold)) (hid k : ℕ) (hk : k ≠ hid)
    (v : SeatHold) :
    (l.map (fun p => if p.1 = hid then (p.1, v) else p)).lookup k = l.lookup k := by
  induction l with
  | nil => rfl
  | cons p t ih =>
    obtain ⟨a, b⟩ := p
    by_cases ha : a = hid
    · subst ha
      have hba : (k == a) = false := by simp [hk]
      simp only [List.map_cons, List.lookup_cons, if_pos rfl, if_true, eq_self_iff_true,
        hba] at *
      exact ih
    · by_cases hak : k = a
      · subst hak
        simp only [List.map_cons, List.lookup_cons, if_neg ha, beq_self_eq_true]
      · have hba : (k == a) = false := by simp [hak]
        simp only [List.map_cons, List.lookup_cons, if_neg ha, hba] at *
        exact ih

theorem map_update_fst (l : List (ℕ × SeatHold)) (hid : ℕ) (v : SeatHold) :
    (l.map (fun p => if p.1 = hid then (p.1, v) else p)).map Prod.fst = l.map Prod.fst := by
  induction l with
  | nil => rfl
  | cons p t ih =>
    obtain ⟨a, b⟩ := p
    by_cases ha : a = hid
    · simp only [List.map_cons, if_pos ha, ih]
    · simp only [List.map_cons, if_neg ha, ih]

theorem lookup_of_mem_nodup (l : List (ℕ × SeatHold)) (p : ℕ × SeatHold)
    (hm : p ∈ l) (hn : (l.map Prod.fst).Nodup) : l.lookup p.1 = some p.2 := by
  induction l with
  | nil => exact absurd hm (List.not_mem_nil p)
  | cons q t ih =>
    obtain ⟨a, b⟩ := q
    rcases List.mem_cons.mp hm with rfl | hmt
    · simp [List.lookup_cons]
    · have ha : a ≠ p.1 := by
        intro h
        have hmem : p.1 ∈ t.map Prod.fst := List.mem_map_of_mem Prod.fst hmt
        rw [← h] at hmem
        exact (List.nodup_cons.mp (by simpa using hn)).1 hmem
      have hba : (p.1 == a) = false := by simp [Ne.symm ha]
      simp only [List.lookup_cons, hba]
      exact ih hmt (List.nodup_cons.mp (by simpa using hn)).2

theorem key_unique_nodup (l : List (ℕ × SeatHold)) (p q : ℕ × SeatHold)
    (hp : p ∈ l) (hq : q ∈ l) (hn : (l.map Prod.fst).Nodup) (hk : p.1 = q.1) : p = q := by
  have h1 := lookup_of_mem_nodup l p hp hn
  have h2 := lookup_of_mem_nodup l q hq hn
  rw [hk] at h1
  rw [h1] at h2
  obtain ⟨p1, p2⟩ := p
  obtain ⟨q1, q2⟩ := q
  simp at hk h2
  simp [hk, h2]

theorem markSeats_nil (m : ℕ → Option SeatStatus) (st : SeatStatus) :
    markSeats m List.nil st = m := rfl

theorem markSeats_cons (m : ℕ → Option SeatStatus) (a : ℕ) (t : List ℕ) (st : SeatStatus) :
    markSeats m (a :: t) st = markSeats (fun k => if k = a then some st else m k) t st := rfl

theorem markSeats_spec (seats : List ℕ) (st : SeatStatus) :
    ∀ m, (∀ s, s ∈ seats → markSeats m seats st s = some st) ∧
      (∀ k, k ∉ seats → markSeats m seats st k = m k) := by
  induction seats with
  | nil =>
    intro m
    exact ⟨fun s hs => absurd hs (List.not_mem_nil s), fun k _ => rfl⟩
  | cons a t ih =>
    intro m
    rw [markSeats_cons]
    obtain ⟨ih1, ih2⟩ := ih (fun k => if k = a then some st else m k)
    constructor
    · intro s hs
      by_cases hst : s ∈ t
      · exact ih1 s hst
      · rcases List.mem_cons.mp hs with rfl | h2
        · rw [ih2 s hst]
          simp
        · exact absurd h2 hst
    · intro k hk
      have hka : k ≠ a := fun h => hk (h ▸ List.mem_cons_self a t)
      have hkt : k ∉ t := fun h => hk (List.mem_cons_of_mem a h)
      rw [ih2 k hkt]
      simp [hka]

theorem releaseSeats_cons (m : ℕ → Option SeatStatus) (a : ℕ) (t : List ℕ) :
    releaseSeats m (a :: t) =
      releaseSeats (if m a = some SeatStatus.HELD then
        (fun k => if k = a then some SeatStatus.AVAILABLE else m k) else m) t := rfl

theorem releaseSeats_spec (seats : List ℕ) :
    ∀ m : ℕ → Option SeatStatus,
      (∀ s, s ∈ seats → m s = some SeatStatus.HELD ∨ m s = some SeatStatus.AVAILABLE) →
      (∀ s, s ∈ seats → releaseSeats m seats s = some SeatStatus.AVAILABLE) ∧
      (∀ k, k ∉ seats → releaseSeats m seats k = m k) := by
  induction seats with
  | nil =>
    intro m h
    exact ⟨fun s hs => absurd hs (List.not_mem_nil s), fun k _ => rfl⟩
  | cons a t ih =>
    intro m h
    rw [releaseSeats_cons]
    by_cases hH : m a = some SeatStatus.HELD
    · rw [if_pos hH]
      have hrec : ∀ s, s ∈ t → (fun k => if k = a then some SeatStatus.AVAILABLE else m k) s =
          some SeatStatus.HELD ∨
          (fun k => if k = a then some SeatStatus.AVAILABLE else m k) s =
          some SeatStatus.AVAILABLE := by
        intro s hs
        by_cases hsa : s = a
        · subst hsa
          simp
        · simp only [if_neg hsa]
          exact h s (List.mem_cons_of_mem a hs)
      obtain ⟨ih1, ih2⟩ := ih (fun k => if k = a then some SeatStatus.AVAILABLE else m k) hrec
      constructor
      · intro s hs
        by_cases hst : s ∈ t
        · exact ih1 s hst
        · rcases List.mem_cons.mp hs with rfl | h2
          · rw [ih2 s hst]
            simp
          · exact absurd h2 hst
      · intro k hk
        have hka : k ≠ a := fun h2 => hk (h2 ▸ List.mem_cons_self a t)
        have hkt : k ∉ t := fun h2 => hk (List.mem_cons_of_mem a h2)
        rw [ih2 k hkt]
        simp [hka]
    · rw [if_neg hH]
      have hA : m a = some SeatStatus.AVAILABLE := by
        rcases h a (List.mem_cons_self a t) with h1 | h1
        · exact absurd h1 hH
        · exact h1
      obtain ⟨ih1, ih2⟩ := ih m (fun s hs => h s (List.mem_cons_of_mem a hs))
      constructor
      · intro s hs
        by_cases hst : s ∈ t
        · exact ih1 s hst
        · rcases List.mem_cons.mp hs with rfl | h2
          · rw [ih2 s hst]
            exact hA
          · exact absurd h2 hst
      · intro k hk
        exact ih2 k (fun h2 => hk (List.mem_cons_of_mem a h2))

theorem releaseSeats_other (seats : List ℕ) :
    ∀ (m : ℕ → Option SeatStatus) (k : ℕ), k ∉ seats → releaseSeats m seats k = m k := by
  induction seats with
  | nil => intro m k _; rfl
  | cons a t ih =>
    intro m k hk
    have hka : k ≠ a := fun h2 => hk (h2 ▸ List.mem_cons_self a t)
    have hkt : k ∉ t := fun h2 => hk (List.mem_cons_of_mem a h2)
    rw [releaseSeats_cons]
    by_cases hH : m a = some SeatStatus.HELD
    · rw [if_pos hH, ih _ k hkt]
      simp [hka]
    · rw [if_neg hH, ih _ k hkt]

/-
Effect of release and convert on the hold table, shared helpers.
-/

theorem releaseHold_notActive (db : DB) (now : ℤ) (holdId : ℕ) (reason : ReleaseReason)
    (hold : SeatHold) (hh : findHold db holdId = some hold)
    (hnact : hold.status ≠ HoldStatus.ACTIVE) :
    releaseHold db now holdId reason = (false, db) := by
  unfold releaseHold releaseHoldTx
  rw [hh]
  dsimp only
  rw [if_pos hnact]

theorem releaseHold_missing (db : DB) (now : ℤ) (holdId : ℕ) (reason : ReleaseReason)
    (hh : findHold db holdId = none) :
    releaseHold db now holdId reason = (false, db) := by
  unfold releaseHold releaseHoldTx
  rw [hh]

theorem convert_notActive (db : DB) (now : ℤ) (holdId : ℕ) (bookingId : ℕ)
    (hold : SeatHold) (hh : findHold db holdId = some hold)
    (hnact : hold.status ≠ HoldStatus.ACTIVE) :
    convertHoldToBooking db now holdId bookingId = (false, db) := by
  unfold convertHoldToBooking convertHoldToBookingTx
  rw [hh]
  dsimp only
  rw [if_pos hnact]

theorem releaseHold_holds_effect (db : DB) (now : ℤ) (holdId : ℕ) (reason : ReleaseReason)
    (hold : SeatHold) (hh : findHold db holdId = some hold)
    (hact : hold.status = HoldStatus.ACTIVE) :
    (releaseHold db now holdId reason).1 = true ∧
    findHold (releaseHold db now holdId reason).2 holdId =
      some { hold with
        status := if reason = ReleaseReason.CONVERTED then HoldStatus.CONVERTED
          else HoldStatus.RELEASED
        releasedAt := some now } ∧
    (∀ k, k ≠ holdId → findHold (releaseHold db now holdId reason).2 k = findHold db k) ∧
    (releaseHold db now holdId reason).2.seatHolds.map Prod.fst = db.seatHolds.map Prod.fst := by
  have htx : ∃ db2, releaseHoldTx db now holdId reason = Except.ok db2 := by
    unfold releaseHoldTx
    rw [hh]
    dsimp only
    rw [if_neg (by simp [hact])]
    exact ⟨_, rfl⟩
  obtain ⟨db2, htx⟩ := htx
  obtain ⟨hold2, hh2, _, hmap, _, _⟩ := releaseHoldTx_ok_spec _ _ _ _ _ htx
  rw [hh] at hh2
  injection hh2 with hh2
  subst hh2
  have hrw : releaseHold db now holdId reason = (true, db2) := by
    unfold releaseHold
    rw [htx]
  rw [hrw]
  refine ⟨rfl, ?_, ?_, ?_⟩
  · unfold findHold
    rw [hmap]
    exact lookup_map_update_same _ _ _ _ hh
  · intro k hk
    unfold findHold
    rw [hmap]
    exact lookup_map_update_other _ _ _ hk _
  · rw [hmap]
    exact map_update_fst _ _ _

theorem convert_holds_effect (db : DB) (now : ℤ) (holdId : ℕ) (bookingId : ℕ)
    (hold : SeatHold) (hh : findHold db holdId = some hold)
    (hact : hold.status = HoldStatus.ACTIVE) :
    (convertHoldToBooking db now holdId bookingId).1 = true ∧
    findHold (convertHoldToBooking db now holdId bookingId).2 holdId =
      some { hold with status := HoldStatus.CONVERTED, releasedAt := some now } ∧
    (∀ k, k ≠ holdId →
      findHold (convertHoldToBooking db now holdId bookingId).2 k = findHold db k) := by
  have htx : ∃ db2, convertHoldToBookingTx db now holdId = Except.ok db2 := by
    unfold convertHoldToBookingTx
    rw [hh]
    dsimp only
    rw [if_neg (by simp [hact])]
    cases (updateHold db holdId
        { hold with status := HoldStatus.CONVERTED, releasedAt := some now }).schedules
        hold.scheduleId with
    | none => exact ⟨_, rfl⟩
    | some s => exact ⟨_, rfl⟩
  obtain ⟨db2, htx⟩ := htx
  obtain ⟨hold2, hh2, _, hmap, _, _⟩ := convertHoldToBookingTx_ok_spec _ _ _ _ htx
  rw [hh] at hh2
  injection hh2 with hh2
  subst hh2
  have hrw : convertHoldToBooking db now holdId bookingId = (true, db2) := by
    unfold convertHoldToBooking
    rw [htx]
  rw [hrw]
  refine ⟨rfl, ?_, ?_⟩
  · unfold findHold
    rw [hmap]
    exact lookup_map_update_same _ _ _ _ hh
  · intro k hk
    unfold findHold
    rw [hmap]
    exact lookup_map_update_other _ _ _ hk _

/-- C7: releasing an ACTIVE hold succeeds, stamps the hold RELEASED with
releasedAt (for the release reasons of the external interface, EXPIRED and
USER_CANCELLED), returns every covered seat that is HELD to AVAILABLE leaving
other seats alone, and moves exactly the seat count of the hold from
heldSeats back to availableSeats; a releaseHold on a hold that is no longer
ACTIVE — in particular any second releaseHold after a successful one — is a
no-op failure that changes no counts, no seat statuses and no hold record. -/
theorem releaseHold_spec (db : DB) (now : ℤ) (holdId : ℕ) (reason : ReleaseReason)
    (hold : SeatHold) (hh : findHold db holdId = some hold) :
    (hold.status = HoldStatus.ACTIVE →
      (releaseHold db now holdId reason).1 = true ∧
      (reason ≠ ReleaseReason.CONVERTED →
        findHold (releaseHold db now holdId reason).2 holdId =
          some { hold with status := HoldStatus.RELEASED, releasedAt := some now }) ∧
      (∀ schedule, db.schedules hold.scheduleId = some schedule →
        ∃ s2, (releaseHold db now holdId reason).2.schedules hold.scheduleId = some s2 ∧
          s2.availableSeats = schedule.availableSeats + (hold.seatNumbers.length : ℤ) ∧
          s2.heldSeats = schedule.heldSeats - (hold.seatNumbers.length : ℤ) ∧
          s2.bookedSeats = schedule.bookedSeats ∧
          ((∀ s, s ∈ hold.seatNumbers → schedule.seatStatus s = some SeatStatus.HELD) →
            ∀ s, s ∈ hold.seatNumbers → s2.seatStatus s = some SeatStatus.AVAILABLE) ∧
          (∀ k, k ∉ hold.seatNumbers → s2.seatStatus k = schedule.seatStatus k)) ∧
      (∀ now2 reason2,
        releaseHold (releaseHold db now holdId reason).2 now2 holdId reason2 =
          (false, (releaseHold db now holdId reason).2))) ∧
    (hold.status ≠ HoldStatus.ACTIVE → releaseHold db now holdId reason = (false, db)) := by
  constructor
  · intro hact
    obtain ⟨h1, h2, _, _⟩ := releaseHold_holds_effect db now holdId reason hold hh hact
    refine ⟨h1, ?_, ?_, ?_⟩
    · intro hr
      rw [if_neg hr] at h2
      exact h2
    · intro schedule hs
      rcases releaseHold_cases db now holdId reason with ⟨hf, _⟩ | ⟨_, htx⟩
      · rw [h1] at hf; exact absurd hf (by simp)
      · obtain ⟨hold2, hh2, _, _, _, hsched⟩ := releaseHoldTx_ok_spec _ _ _ _ _ htx
        rw [hh] at hh2
        injection hh2 with hh2
        subst hh2
        rcases hsched with ⟨hnone, _⟩ | ⟨t, ht, hsid, _⟩
        · rw [hs] at hnone; exact Option.noConfusion hnone
        · rw [hs] at ht
          injection ht with ht
          subst ht
          refine ⟨_, hsid, rfl, rfl, rfl, ?_, ?_⟩
          · intro hseats
            exact (releaseSeats_spec hold.seatNumbers schedule.seatStatus
              (fun s hsm => Or.inl (hseats s hsm))).1
          · exact releaseSeats_other hold.seatNumbers schedule.seatStatus
    · intro now2 reason2
      have hterm : (if reason = ReleaseReason.CONVERTED then HoldStatus.CONVERTED
          else HoldStatus.RELEASED) ≠ HoldStatus.ACTIVE := by
        split <;> simp
      exact releaseHold_notActive _ now2 holdId reason2 _ h2 hterm
  · intro hnact
    exact releaseHold_notActive db now holdId reason hold hh hnact

/-- Witness for C7 at the concrete database `dbWithHold`: a user-cancel
release of the active hold succeeds, stamps it RELEASED and restores the
counts; a second releaseHold on the now-RELEASED hold — applied through the
no-op conjunct of the theorem — fails and returns the state unchanged. -/
theorem releaseHold_spec_witness :
    (releaseHold dbWithHold 150 0 ReleaseReason.USER_CANCELLED).1 = true ∧
    findHold (releaseHold dbWithHold 150 0 ReleaseReason.USER_CANCELLED).2 0 =
      some { holdOne with status := HoldStatus.RELEASED, releasedAt := some 150 } ∧
    releaseHold (releaseHold dbWithHold 150 0 ReleaseReason.USER_CANCELLED).2 160 0
        ReleaseReason.USER_CANCELLED =
      (false, (releaseHold dbWithHold 150 0 ReleaseReason.USER_CANCELLED).2) := by
  have h := (releaseHold_spec dbWithHold 150 0 ReleaseReason.USER_CANCELLED holdOne rfl).1 rfl
  have hrel := h.2.1 (by decide)
  have hnoop := (releaseHold_spec (releaseHold dbWithHold 150 0
      ReleaseReason.USER_CANCELLED).2 160 0 ReleaseReason.USER_CANCELLED
      { holdOne with status := HoldStatus.RELEASED, releasedAt := some 150 } hrel).2
    (by decide)
  exact ⟨h.1, hrel, hnoop⟩

/-- C8: converting an ACTIVE hold succeeds, stamps the hold CONVERTED, marks
every covered seat BOOKED, and moves exactly the seat count of the hold from
heldSeats to bookedSeats with availableSeats and totalSeats unchanged; a
second conversion of the same hold fails and changes nothing, so a retried
conversion never books the seats twice. -/
theorem convertHold_spec (db : DB) (now : ℤ) (holdId : ℕ) (bookingId : ℕ)
    (hold : SeatHold) (schedule : BusSchedule)
    (hh : findHold db holdId = some hold)
    (hs : db.schedules hold.scheduleId = some schedule) :
    (hold.status = HoldStatus.ACTIVE →
      (convertHoldToBooking db now holdId bookingId).1 = true ∧
      findHold (convertHoldToBooking db now holdId bookingId).2 holdId =
        some { hold with status := HoldStatus.CONVERTED, releasedAt := some now } ∧
      (∃ s2, (convertHoldToBooking db now holdId bookingId).2.schedules hold.scheduleId =
          some s2 ∧
        s2.bookedSeats = schedule.bookedSeats + (hold.seatNumbers.length : ℤ) ∧
        s2.heldSeats = schedule.heldSeats - (hold.seatNumbers.length : ℤ) ∧
        s2.availableSeats = schedule.availableSeats ∧
        s2.totalSeats = schedule.totalSeats ∧
        (∀ s, s ∈ hold.seatNumbers → s2.seatStatus s = some SeatStatus.BOOKED)) ∧
      (∀ now2 bid2,
        convertHoldToBooking (convertHoldToBooking db now holdId bookingId).2 now2 holdId bid2 =
          (false, (convertHoldToBooking db now holdId bookingId).2))) ∧
    (hold.status ≠ HoldStatus.ACTIVE →
      convertHoldToBooking db now holdId bookingId = (false, db)) := by
  constructor
  · intro hact
    obtain ⟨h1, h2, _⟩ := convert_holds_effect db now holdId bookingId hold hh hact
    refine ⟨h1, h2, ?_, ?_⟩
    · rcases convertHoldToBooking_cases db now holdId bookingId with ⟨hf, _⟩ | ⟨_, htx⟩
      · rw [h1] at hf; exact absurd hf (by simp)
      · obtain ⟨hold2, hh2, _, _, _, hsched⟩ := convertHoldToBookingTx_ok_spec _ _ _ _ htx
        rw [hh] at hh2
        injection hh2 with hh2
        subst hh2
        rcases hsched with ⟨hnone, _⟩ | ⟨t, ht, hsid, _⟩
        · rw [hs] at hnone; exact Option.noConfusion hnone
        · rw [hs] at ht
          injection ht with ht
          subst ht
          obtain ⟨hmk1, hmk2⟩ := markSeats_spec hold.seatNumbers SeatStatus.BOOKED
            schedule.seatStatus
          exact ⟨_, hsid, rfl, rfl, rfl, rfl, hmk1⟩
    · intro now2 bid2
      exact convert_notActive _ now2 holdId bid2 _ h2 (by simp)
  · intro hnact
    exact convert_notActive db now holdId bookingId hold hh hnact

/-- Witness for C8 at the concrete database `dbWithHold`: converting the
active hold succeeds and stamps it CONVERTED, and a second conversion fails
without changing the state. -/
theorem convertHold_spec_witness :
    (convertHoldToBooking dbWithHold 150 0 77).1 = true ∧
    findHold (convertHoldToBooking dbWithHold 150 0 77).2 0 =
      some { holdOne with status := HoldStatus.CONVERTED, releasedAt := some 150 } ∧
    convertHoldToBooking (convertHoldToBooking dbWithHold 150 0 77).2 160 0 88 =
      (false, (convertHoldToBooking dbWithHold 150 0 77).2) := by
  have h := (convertHold_spec dbWithHold 150 0 77 holdOne schedWithHeld rfl rfl).1 rfl
  exact ⟨h.1, h.2.1, h.2.2.2 160 88⟩

/-
The quota gate of `holdSeats`, characterized.
-/

theorem lookup_cons_self (a : ℕ) (v : SeatHold) (l : List (ℕ × SeatHold)) :
    ((a, v) :: l).lookup a = some v := by
  simp [List.lookup_cons]

theorem isHoldQuotaAvailable_enabled (db : DB) (sid : ℕ) (q : ℤ) (schedule : BusSchedule)
    (hs : db.schedules sid = some schedule)
    (hen : schedule.partner.holdQuotaEnabled = true) :
    isHoldQuotaAvailable db sid q = Except.ok
      { available := decide (schedule.heldSeats + q ≤ calculateMaxHolds schedule.totalSeats
          (jsOrDefault schedule.partner.holdQuotaPercentage DEFAULT_HOLD_QUOTA_PERCENTAGE))
        maxAllowed := calculateMaxHolds schedule.totalSeats
          (jsOrDefault schedule.partner.holdQuotaPercentage DEFAULT_HOLD_QUOTA_PERCENTAGE)
        currentHeld := schedule.heldSeats } := by
  unfold isHoldQuotaAvailable
  rw [hs]
  dsimp only
  rw [if_neg (by simp [hen])]

theorem isHoldQuotaAvailable_disabled (db : DB) (sid : ℕ) (q : ℤ) (schedule : BusSchedule)
    (hs : db.schedules sid = some schedule)
    (hen : schedule.partner.holdQuotaEnabled = false) :
    isHoldQuotaAvailable db sid q =
      Except.ok { available := false, maxAllowed := 0, currentHeld := 0 } := by
  unfold isHoldQuotaAvailable
  rw [hs]
  dsimp only
  rw [if_pos hen]

theorem holdSeats_quota_reject (db : DB) (now : ℤ) (params : HoldSeatsParams)
    (qc : QuotaCheck)
    (hq : isHoldQuotaAvailable db params.scheduleId ((params.seatNumbers.length : ℤ)) =
      Except.ok qc)
    (hav : qc.available = false) :
    holdSeats db now params =
      ({ success := false, holdId := none, seatNumbers := params.seatNumbers,
         holdExpiry := now,
         message := "Hold quota exceeded. Max allowed: " ++ toString qc.maxAllowed
           ++ ", Currently held: " ++ toString qc.currentHeld }, db) := by
  unfold holdSeats holdSeatsAfterCheck
  rw [hq]
  dsimp only
  rw [if_pos hav]

theorem holdSeatsAfterCheck_pass (db : DB) (now : ℤ) (params : HoldSeatsParams)
    (qc : QuotaCheck) (hav : qc.available = true) :
    holdSeatsAfterCheck db now params (Except.ok qc) =
      match holdSeatsTx db params.scheduleId params.seatNumbers params.heldBy
          (now + params.holdExpiryMinutes.getD DEFAULT_HOLD_EXPIRY_MINUTES) with
      | Except.error msg =>
          ({ success := false, holdId := none, seatNumbers := params.seatNumbers,
             holdExpiry := now, message := msg }, db)
      | Except.ok (holdId, db2) =>
          ({ success := true, holdId := some holdId, seatNumbers := params.seatNumbers,
             holdExpiry := now + params.holdExpiryMinutes.getD DEFAULT_HOLD_EXPIRY_MINUTES,
             message := "Seats held successfully" }, db2) := by
  unfold holdSeatsAfterCheck
  dsimp only
  rw [if_neg (by simp [hav])]

/-
Concrete quota-check evaluations (the rational floor is bridged to integer
division first, since the kernel cannot reduce rational arithmetic).
-/

theorem maxHolds_schedFour : calculateMaxHolds schedFour.totalSeats
    (jsOrDefault schedFour.partner.holdQuotaPercentage DEFAULT_HOLD_QUOTA_PERCENTAGE) = 1 := by
  rw [show jsOrDefault schedFour.partner.holdQuotaPercentage DEFAULT_HOLD_QUOTA_PERCENTAGE =
    (25 : ℚ) from jsOrDefault_some25]
  exact calculateMaxHolds_4_25

theorem maxHolds_schedWithHeld : calculateMaxHolds schedWithHeld.totalSeats
    (jsOrDefault schedWithHeld.partner.holdQuotaPercentage DEFAULT_HOLD_QUOTA_PERCENTAGE) = 1 := by
  rw [show jsOrDefault schedWithHeld.partner.holdQuotaPercentage
    DEFAULT_HOLD_QUOTA_PERCENTAGE = (25 : ℚ) from jsOrDefault_some25]
  exact calculateMaxHolds_4_25

theorem maxHolds_schedZeroPct : calculateMaxHolds schedZeroPct.totalSeats
    (jsOrDefault schedZeroPct.partner.holdQuotaPercentage DEFAULT_HOLD_QUOTA_PERCENTAGE) = 25 := by
  rw [show jsOrDefault schedZeroPct.partner.holdQuotaPercentage
    DEFAULT_HOLD_QUOTA_PERCENTAGE = (25 : ℚ) from jsOrDefault_some0]
  exact calculateMaxHolds_100_25

theorem maxHolds_schedZeroTotal : calculateMaxHolds schedZeroTotal.totalSeats
    (jsOrDefault schedZeroTotal.partner.holdQuotaPercentage DEFAULT_HOLD_QUOTA_PERCENTAGE) = 0 := by
  rw [show jsOrDefault schedZeroTotal.partner.holdQuotaPercentage
    DEFAULT_HOLD_QUOTA_PERCENTAGE = (25 : ℚ) from jsOrDefault_some25]
  exact calculateMaxHolds_0_25

theorem isHoldQuota_dbFour : isHoldQuotaAvailable dbFour 0 1 =
    Except.ok { available := true, maxAllowed := 1, currentHeld := 0 } := by
  rw [isHoldQuotaAvailable_enabled dbFour 0 1 schedFour rfl rfl, maxHolds_schedFour]
  rfl

theorem isHoldQuota_dbZeroPct : isHoldQuotaAvailable dbZeroPct 0 1 =
    Except.ok { available := true, maxAllowed := 25, currentHeld := 0 } := by
  rw [isHoldQuotaAvailable_enabled dbZeroPct 0 1 schedZeroPct rfl rfl, maxHolds_schedZeroPct]
  rfl

theorem isHoldQuota_dbZeroTotal : isHoldQuotaAvailable dbZeroTotal 0 1 =
    Except.ok { available := false, maxAllowed := 0, currentHeld := 0 } := by
  rw [isHoldQuotaAvailable_enabled dbZeroTotal 0 1 schedZeroTotal rfl rfl,
    maxHolds_schedZeroTotal]
  rfl

theorem isHoldQuota_dbWithHold : isHoldQuotaAvailable dbWithHold 0 1 =
    Except.ok { available := false, maxAllowed := 1, currentHeld := 1 } := by
  rw [isHoldQuotaAvailable_enabled dbWithHold 0 1 schedWithHeld rfl rfl,
    maxHolds_schedWithHeld]
  rfl

/-- C4 (amended): with the schedule present and the partner hold-enabled, the
quota gate of `holdSeats` rejects exactly when currentHeld plus the requested
quantity exceeds the cap computed from the effective percentage (the policy
percentage when set and nonzero, the default 25 otherwise); the rejection
reports both the cap and the current held count in its message and returns
the database unchanged, and under the cap the quota check passes. -/
theorem holdSeats_quota_gate (db : DB) (now : ℤ) (params : HoldSeatsParams)
    (schedule : BusSchedule)
    (hs : db.schedules params.scheduleId = some schedule)
    (hen : schedule.partner.holdQuotaEnabled = true) :
    (schedule.heldSeats + ((params.seatNumbers.length : ℤ)) >
        calculateMaxHolds schedule.totalSeats
          (jsOrDefault schedule.partner.holdQuotaPercentage DEFAULT_HOLD_QUOTA_PERCENTAGE) →
      holdSeats db now params =
        ({ success := false, holdId := none, seatNumbers := params.seatNumbers,
           holdExpiry := now,
           message := "Hold quota exceeded. Max allowed: " ++
             toString (calculateMaxHolds schedule.totalSeats
               (jsOrDefault schedule.partner.holdQuotaPercentage
                 DEFAULT_HOLD_QUOTA_PERCENTAGE)) ++
             ", Currently held: " ++ toString schedule.heldSeats }, db)) ∧
    (schedule.heldSeats + ((params.seatNumbers.length : ℤ)) ≤
        calculateMaxHolds schedule.totalSeats
          (jsOrDefault schedule.partner.holdQuotaPercentage DEFAULT_HOLD_QUOTA_PERCENTAGE) →
      isHoldQuotaAvailable db params.scheduleId ((params.seatNumbers.length : ℤ)) =
        Except.ok
          { available := true,
            maxAllowed := calculateMaxHolds schedule.totalSeats
              (jsOrDefault schedule.partner.holdQuotaPercentage DEFAULT_HOLD_QUOTA_PERCENTAGE),
            currentHeld := schedule.heldSeats }) := by
  constructor
  · intro hover
    have hq := isHoldQuotaAvailable_enabled db params.scheduleId
      ((params.seatNumbers.length : ℤ)) schedule hs hen
    rw [show (decide (schedule.heldSeats + ((params.seatNumbers.length : ℤ)) ≤
        calculateMaxHolds schedule.totalSeats
          (jsOrDefault schedule.partner.holdQuotaPercentage DEFAULT_HOLD_QUOTA_PERCENTAGE))) =
        false from decide_eq_false (not_le.mpr hover)] at hq
    exact holdSeats_quota_reject db now params
      { available := false,
        maxAllowed := calculateMaxHolds schedule.totalSeats
          (jsOrDefault schedule.partner.holdQuotaPercentage DEFAULT_HOLD_QUOTA_PERCENTAGE),
        currentHeld := schedule.heldSeats } hq rfl
  · intro hle
    have hq := isHoldQuotaAvailable_enabled db params.scheduleId
      ((params.seatNumbers.length : ℤ)) schedule hs hen
    rw [show (decide (schedule.heldSeats + ((params.seatNumbers.length : ℤ)) ≤
        calculateMaxHolds schedule.totalSeats
          (jsOrDefault schedule.partner.holdQuotaPercentage DEFAULT_HOLD_QUOTA_PERCENTAGE))) =
        true from decide_eq_true hle] at hq
    exact hq

/-- Counterexample for C4 as frozen: the partner of `dbZeroPct` has holds
enabled with a configured quota percentage of 0, so the claimed formula
demands rejection (0 held + 1 requested exceeds calculateMaxHolds(100, 0) =
0), but the source falls back to the default 25 percent (JavaScript `||` on
the falsy 0) and accepts the request. -/
theorem holdSeats_quota_gate_counterexample :
    schedZeroPct.partner.holdQuotaEnabled = true ∧
    schedZeroPct.partner.holdQuotaPercentage = some 0 ∧
    schedZeroPct.heldSeats + (((reqSeat 1).seatNumbers.length : ℤ)) >
      calculateMaxHolds schedZeroPct.totalSeats 0 ∧
    (holdSeats dbZeroPct 0 (reqSeat 1)).1.success = true := by
  refine ⟨rfl, rfl, ?_, ?_⟩
  · have h0 : calculateMaxHolds schedZeroPct.totalSeats 0 = 0 := calculateMaxHolds_100_0
    rw [h0]
    decide
  · show (holdSeatsAfterCheck dbZeroPct 0 (reqSeat 1)
      (isHoldQuotaAvailable dbZeroPct 0 (((reqSeat 1).seatNumbers.length : ℤ)))).1.success = true
    rw [show isHoldQuotaAvailable dbZeroPct 0 (((reqSeat 1).seatNumbers.length : ℤ)) =
      Except.ok { available := true, maxAllowed := 25, currentHeld := 0 }
      from isHoldQuota_dbZeroPct]
    decide

/-- Witness for C4 (amended) at `dbWithHold`: one seat already held against a
cap of one, so requesting one more is rejected with the report and no state
change. -/
theorem holdSeats_quota_gate_witness :
    (holdSeats dbWithHold 0 (reqSeat 2)).1 =
      { success := false, holdId := none, seatNumbers := (reqSeat 2).seatNumbers,
        holdExpiry := 0,
        message := "Hold quota exceeded. Max allowed: 1, Currently held: 1" } ∧
    (holdSeats dbWithHold 0 (reqSeat 2)).2 = dbWithHold := by
  have hover : schedWithHeld.heldSeats + (((reqSeat 2).seatNumbers.length : ℤ)) >
      calculateMaxHolds schedWithHeld.totalSeats
        (jsOrDefault schedWithHeld.partner.holdQuotaPercentage
          DEFAULT_HOLD_QUOTA_PERCENTAGE) := by
    rw [maxHolds_schedWithHeld]
    decide
  have h := (holdSeats_quota_gate dbWithHold 0 (reqSeat 2) schedWithHeld rfl rfl).1 hover
  rw [maxHolds_schedWithHeld] at h
  constructor
  · rw [h]
    decide
  · rw [h]

/-- C5 (amended): every successful `holdSeats` call creates a hold with
status ACTIVE whose expiry (both in the returned result and in the stored
row) is the request time plus the caller-supplied `holdExpiryMinutes`
parameter, falling back to the global default of 30 minutes. -/
theorem holdSeats_expiry_amended (db : DB) (now : ℤ) (params : HoldSeatsParams)
    (r : HoldResult) (db2 : DB)
    (h : holdSeats db now params = (r, db2)) (hsucc : r.success = true) :
    r.holdExpiry = now + params.holdExpiryMinutes.getD DEFAULT_HOLD_EXPIRY_MINUTES ∧
    ∃ hid, r.holdId = some hid ∧
      findHold db2 hid =
        some { scheduleId := params.scheduleId, seatNumbers := params.seatNumbers,
               heldBy := params.heldBy,
               holdExpiry := now + params.holdExpiryMinutes.getD DEFAULT_HOLD_EXPIRY_MINUTES,
               status := HoldStatus.ACTIVE, releasedAt := none } := by
  rcases holdSeats_cases db now params with ⟨hf, _⟩ | ⟨_, hid, hholdId, hexp, htx⟩
  · rw [h] at hf
    rw [hsucc] at hf
    exact absurd hf (by simp)
  · rw [h] at hholdId hexp htx
    obtain ⟨schedule, _, _, _, hidEq, _, _, hholds, _⟩ :=
      holdSeatsTx_ok_spec _ _ _ _ _ _ _ htx
    refine ⟨hexp, hid, hholdId, ?_⟩
    unfold findHold
    rw [hholds, hidEq]
    exact lookup_cons_self _ _ _

/-- Witness for C5 (amended) at `dbFour` with no expiry override: the result
expiry is the request time plus the 30-minute default. -/
theorem holdSeats_expiry_amended_witness :
    (holdSeats dbFour 0 (reqSeat 1)).1.holdExpiry =
      0 + (reqSeat 1).holdExpiryMinutes.getD DEFAULT_HOLD_EXPIRY_MINUTES := by
  have hsucc : (holdSeats dbFour 0 (reqSeat 1)).1.success = true := by
    show (holdSeatsAfterCheck dbFour 0 (reqSeat 1)
      (isHoldQuotaAvailable dbFour 0 (((reqSeat 1).seatNumbers.length : ℤ)))).1.success = true
    rw [show isHoldQuotaAvailable dbFour 0 (((reqSeat 1).seatNumbers.length : ℤ)) =
      Except.ok { available := true, maxAllowed := 1, currentHeld := 0 }
      from isHoldQuota_dbFour]
    decide
  exact (holdSeats_expiry_amended dbFour 0 (reqSeat 1) (holdSeats dbFour 0 (reqSeat 1)).1
    (holdSeats dbFour 0 (reqSeat 1)).2 rfl hsucc).1

/-- Counterexample for C5 as frozen: the partner of `dbFour` configures a
60-minute hold expiry (`partnerBus.holdExpiryMinutes = 60`), yet a successful
`holdSeats` without an override expires 30 minutes after the request time —
the source never reads the partner policy for the expiry, it uses the caller
parameter or the global default. -/
theorem holdSeats_expiry_counterexample :
    partnerBus.holdExpiryMinutes = some 60 ∧
    (holdSeats dbFour 0 (reqSeat 1)).1.success = true ∧
    (holdSeats dbFour 0 (reqSeat 1)).1.holdExpiry = 0 + DEFAULT_HOLD_EXPIRY_MINUTES ∧
    ¬ (holdSeats dbFour 0 (reqSeat 1)).1.holdExpiry = 0 + 60 := by
  have hq := isHoldQuota_dbFour
  refine ⟨rfl, ?_, ?_, ?_⟩ <;>
    · show _
      first
      | (show (holdSeatsAfterCheck dbFour 0 (reqSeat 1)
          (isHoldQuotaAvailable dbFour 0 (((reqSeat 1).seatNumbers.length : ℤ)))).1.success = true
         rw [show isHoldQuotaAvailable dbFour 0 (((reqSeat 1).seatNumbers.length : ℤ)) =
           Except.ok { available := true, maxAllowed := 1, currentHeld := 0 } from hq]
         decide)
      | (show (holdSeatsAfterCheck dbFour 0 (reqSeat 1)
          (isHoldQuotaAvailable dbFour 0 (((reqSeat 1).seatNumbers.length : ℤ)))).1.holdExpiry =
            0 + DEFAULT_HOLD_EXPIRY_MINUTES
         rw [show isHoldQuotaAvailable dbFour 0 (((reqSeat 1).seatNumbers.length : ℤ)) =
           Except.ok { available := true, maxAllowed := 1, currentHeld := 0 } from hq]
         decide)
      | (show ¬ (holdSeatsAfterCheck dbFour 0 (reqSeat 1)
          (isHoldQuotaAvailable dbFour 0 (((reqSeat 1).seatNumbers.length : ℤ)))).1.holdExpiry =
            0 + 60
         rw [show isHoldQuotaAvailable dbFour 0 (((reqSeat 1).seatNumbers.length : ℤ)) =
           Except.ok { available := true, maxAllowed := 1, currentHeld := 0 } from hq]
         decide)

/-- C6 (amended): a hold request against a partner whose policy disables
holds fails before any mutation (the database is returned unchanged), but
the outcome is the quota-exceeded result reporting maxAllowed = 0 and
currentHeld = 0, not a distinct policy-disabled variant. -/
theorem holdSeats_policyDisabled_amended (db : DB) (now : ℤ) (params : HoldSeatsParams)
    (schedule : BusSchedule)
    (hs : db.schedules params.scheduleId = some schedule)
    (hen : schedule.partner.holdQuotaEnabled = false) :
    holdSeats db now params =
      ({ success := false, holdId := none, seatNumbers := params.seatNumbers,
         holdExpiry := now,
         message := "Hold quota exceeded. Max allowed: " ++ toString (0 : ℤ)
           ++ ", Currently held: " ++ toString (0 : ℤ) }, db) := by
  have hq := isHoldQuotaAvailable_disabled db params.scheduleId
    ((params.seatNumbers.length : ℤ)) schedule hs hen
  exact holdSeats_quota_reject db now params _ hq rfl

/-- Witness for C6 (amended) at `dbDisabled`. -/
theorem holdSeats_policyDisabled_amended_witness :
    holdSeats dbDisabled 5 (reqSeat 1) =
      ({ success := false, holdId := none, seatNumbers := (reqSeat 1).seatNumbers,
         holdExpiry := 5,
         message := "Hold quota exceeded. Max allowed: 0, Currently held: 0" }, dbDisabled) := by
  have h := holdSeats_policyDisabled_amended dbDisabled 5 (reqSeat 1) schedDisabled rfl rfl
  rw [h]
  simp only [Prod.mk.injEq]
  exact ⟨by decide, trivial⟩

/-- Counterexample for C6 as frozen: the policy-disabled outcome is not a
distinct variant — a request against the hold-disabled partner of
`dbDisabled` and a genuine quota-exceeded request against the hold-enabled
zero-seat schedule of `dbZeroTotal` produce byte-identical failure results. -/
theorem holdSeats_policyDisabled_counterexample :
    schedDisabled.partner.holdQuotaEnabled = false ∧
    schedZeroTotal.partner.holdQuotaEnabled = true ∧
    (holdSeats dbDisabled 5 (reqSeat 1)).1 = (holdSeats dbZeroTotal 5 (reqSeat 1)).1 ∧
    (holdSeats dbDisabled 5 (reqSeat 1)).1.success = false := by
  have h1 := holdSeats_quota_reject dbDisabled 5 (reqSeat 1) _
    (isHoldQuotaAvailable_disabled dbDisabled 0 (((reqSeat 1).seatNumbers.length : ℤ))
      schedDisabled rfl rfl) rfl
  have h2 := holdSeats_quota_reject dbZeroTotal 5 (reqSeat 1) _
    (show isHoldQuotaAvailable dbZeroTotal 0 (((reqSeat 1).seatNumbers.length : ℤ)) =
      Except.ok { available := false, maxAllowed := 0, currentHeld := 0 }
      from isHoldQuota_dbZeroTotal) rfl
  refine ⟨rfl, rfl, ?_, ?_⟩
  · rw [h1, h2]
  · rw [h1]

/-- C2 (code bug exhibit): the quota check of `holdSeats` is a separate
database interaction performed before the transaction opens (first conjunct,
definitional), so two concurrent one-seat requests can both run their checks
against the same initial state and then commit their transactions in turn:
against the four-seat schedule with cap maxHoldable = 1 both succeed, leaving
heldSeats = 2 — instead of the claimed single success with final held count
equal to the cap. -/
theorem holdSeats_concurrent_check_race :
    (∀ db now params, holdSeats db now params = holdSeatsAfterCheck db now params
      (isHoldQuotaAvailable db params.scheduleId ((params.seatNumbers.length : ℤ)))) ∧
    calculateMaxHolds schedFour.totalSeats
      (jsOrDefault schedFour.partner.holdQuotaPercentage DEFAULT_HOLD_QUOTA_PERCENTAGE) = 1 ∧
    (holdSeatsAfterCheck dbFour 0 (reqSeat 1) (isHoldQuotaAvailable dbFour 0 1)).1.success =
      true ∧
    (holdSeatsAfterCheck (holdSeatsAfterCheck dbFour 0 (reqSeat 1)
      (isHoldQuotaAvailable dbFour 0 1)).2 0 (reqSeat 2)
      (isHoldQuotaAvailable dbFour 0 1)).1.success = true ∧
    ((holdSeatsAfterCheck (holdSeatsAfterCheck dbFour 0 (reqSeat 1)
      (isHoldQuotaAvailable dbFour 0 1)).2 0 (reqSeat 2)
      (isHoldQuotaAvailable dbFour 0 1)).2.schedules 0).map BusSchedule.heldSeats =
      some 2 := by
  refine ⟨fun db now params => rfl, maxHolds_schedFour, ?_, ?_, ?_⟩ <;>
    · rw [isHoldQuota_dbFour]
      decide

/-
The expiry sweeper.
-/

theorem sweep_go (now : ℤ) (l : List (ℕ × SeatHold)) :
    ∀ acc : ℕ × DB,
      (∀ p, p ∈ l → findHold acc.2 p.1 = some p.2 ∧ p.2.status = HoldStatus.ACTIVE) →
      (l.map Prod.fst).Nodup →
      (l.foldl (sweepStep now) acc).1 = acc.1 + l.length ∧
      (∀ p, p ∈ l → findHold (l.foldl (sweepStep now) acc).2 p.1 =
        some { p.2 with status := HoldStatus.RELEASED, releasedAt := some now }) ∧
      (∀ k, (∀ p, p ∈ l → p.1 ≠ k) →
        findHold (l.foldl (sweepStep now) acc).2 k = findHold acc.2 k) := by
  induction l with
  | nil =>
    intro acc h hn
    exact ⟨by simp, fun p hp => absurd hp (List.not_mem_nil p), fun k _ => rfl⟩
  | cons p t ih =>
    intro acc h hn
    obtain ⟨hfind, hact⟩ := h p (List.mem_cons_self p t)
    obtain ⟨hrel1, hrel2, hrel3, _⟩ := releaseHold_holds_effect acc.2 now p.1
      ReleaseReason.EXPIRED p.2 hfind hact
    have hstep : sweepStep now acc p =
        (acc.1 + 1, (releaseHold acc.2 now p.1 ReleaseReason.EXPIRED).2) := by
      unfold sweepStep
      dsimp only
      rw [if_pos hrel1]
    have hnotin : p.1 ∉ t.map Prod.fst := (List.nodup_cons.mp (by simpa using hn)).1
    have hn2 : (t.map Prod.fst).Nodup := (List.nodup_cons.mp (by simpa using hn)).2
    have hprem : ∀ q, q ∈ t →
        findHold (releaseHold acc.2 now p.1 ReleaseReason.EXPIRED).2 q.1 = some q.2 ∧
        q.2.status = HoldStatus.ACTIVE := by
      intro q hq
      have hqp : q.1 ≠ p.1 := by
        intro he
        exact hnotin (he ▸ List.mem_map_of_mem Prod.fst hq)
      rw [hrel3 q.1 hqp]
      exact h q (List.mem_cons_of_mem p hq)
    obtain ⟨ih1, ih2, ih3⟩ :=
      ih (acc.1 + 1, (releaseHold acc.2 now p.1 ReleaseReason.EXPIRED).2) hprem hn2
    rw [List.foldl_cons, hstep]
    refine ⟨?_, ?_, ?_⟩
    · rw [ih1]
      simp
      omega
    · intro q hq
      rcases List.mem_cons.mp hq with rfl | hqt
      · rw [ih3 q.1 (fun q2 hq2 he => hnotin (he ▸ List.mem_map_of_mem Prod.fst hq2))]
        exact hrel2
      · exact ih2 q hqt
    · intro k hk
      rw [ih3 k (fun q hq => hk q (List.mem_cons_of_mem p hq))]
      exact hrel3 k (Ne.symm (hk p (List.mem_cons_self p t)))

/-- C9 (amended): one sweeper run selects exactly the ACTIVE holds whose
expiry is strictly before the current time and releases each of them (status
RELEASED, stamped releasedAt), leaves every other hold untouched, and returns
the number it released; because the loop ignores individual failures, no hold
blocks the processing of the rest. -/
theorem releaseExpiredHolds_spec (db : DB) (now : ℤ)
    (hn : (db.seatHolds.map Prod.fst).Nodup) :
    (releaseExpiredHolds db now).1 = (db.seatHolds.filter (isExpiredActive now)).length ∧
    (∀ p, p ∈ db.seatHolds → isExpiredActive now p = true →
      findHold (releaseExpiredHolds db now).2 p.1 =
        some { p.2 with status := HoldStatus.RELEASED, releasedAt := some now }) ∧
    (∀ p, p ∈ db.seatHolds → isExpiredActive now p = false →
      findHold (releaseExpiredHolds db now).2 p.1 = some p.2) := by
  have hrw : releaseExpiredHolds db now =
      (db.seatHolds.filter (isExpiredActive now)).foldl (sweepStep now) (0, db) := rfl
  have hnf : ((db.seatHolds.filter (isExpiredActive now)).map Prod.fst).Nodup :=
    hn.sublist (List.Sublist.map Prod.fst (List.filter_sublist db.seatHolds))
  have hprem : ∀ p, p ∈ db.seatHolds.filter (isExpiredActive now) →
      findHold db p.1 = some p.2 ∧ p.2.status = HoldStatus.ACTIVE := by
    intro p hp
    obtain ⟨hmem, hia⟩ := List.mem_filter.mp hp
    refine ⟨lookup_of_mem_nodup _ p hmem hn, ?_⟩
    unfold isExpiredActive at hia
    simp only [Bool.and_eq_true, decide_eq_true_eq] at hia
    exact hia.1
  obtain ⟨h1, h2, h3⟩ := sweep_go now (db.seatHolds.filter (isExpiredActive now)) (0, db)
    hprem hnf
  refine ⟨?_, ?_, ?_⟩
  · rw [hrw, h1]
    omega
  · intro p hp hia
    rw [hrw]
    exact h2 p (List.mem_filter.mpr ⟨hp, hia⟩)
  · intro p hp hia
    rw [hrw]
    rw [h3 p.1 ?_]
    · exact lookup_of_mem_nodup _ p hp hn
    · intro q hq he
      have hqe : q = p := key_unique_nodup db.seatHolds q p (List.mem_filter.mp hq).1 hp hn he
      have hqt := (List.mem_filter.mp hq).2
      rw [hqe, hia] at hqt
      exact Bool.noConfusion hqt

/-- Witness for C9 (amended) at `dbWithHold`: sweeping at time 200 releases
the single hold (its expiry 100 is strictly past) and reports one release. -/
theorem releaseExpiredHolds_spec_witness :
    (releaseExpiredHolds dbWithHold 200).1 =
      (dbWithHold.seatHolds.filter (isExpiredActive 200)).length ∧
    findHold (releaseExpiredHolds dbWithHold 200).2 0 =
      some { holdOne with status := HoldStatus.RELEASED, releasedAt := some 200 } := by
  have h := releaseExpiredHolds_spec dbWithHold 200 (by decide)
  exact ⟨h.1, h.2.1 (0, holdOne) (by decide) (by decide)⟩

/-- Counterexample for C9 as frozen: the sweeper query uses a strict
less-than (`holdExpiry: lt now`), so an ACTIVE hold whose expiry equals the
current instant is not selected — sweeping `dbWithHold` exactly at the expiry
time 100 releases nothing and leaves the hold ACTIVE, where the claim
(expiry at or before now) demands its release. -/
theorem releaseExpiredHolds_boundary_counterexample :
    holdOne.status = HoldStatus.ACTIVE ∧
    holdOne.holdExpiry = 100 ∧
    releaseExpiredHolds dbWithHold 100 = (0, dbWithHold) ∧
    findHold (releaseExpiredHolds dbWithHold 100).2 0 = some holdOne := by
  exact ⟨rfl, rfl, rfl, rfl⟩

/-- C10: the three public hold operations are total functions into plain
result values (the embedding of the try/catch wrappers), and every failure
outcome leaves the database exactly as it was, i.e. the enclosing transaction
was rolled back. -/
theorem holdOps_failure_rollback :
    (∀ db now params, (holdSeats db now params).1.success = false →
       (holdSeats db now params).2 = db) ∧
    (∀ db now holdId reason, (releaseHold db now holdId reason).1 = false →
       (releaseHold db now holdId reason).2 = db) ∧
    (∀ db now holdId bookingId, (convertHoldToBooking db now holdId bookingId).1 = false →
       (convertHoldToBooking db now holdId bookingId).2 = db) := by
  refine ⟨?_, ?_, ?_⟩
  · intro db now params h
    unfold holdSeats holdSeatsAfterCheck at h ⊢
    cases hq : isHoldQuotaAvailable db params.scheduleId ((params.seatNumbers.length : ℤ)) with
    | error msg => simp [hq]
    | ok qc =>
      by_cases ha : qc.available = false
      · simp [hq, ha]
      · simp only [hq, ha, if_false]
        cases htx : holdSeatsTx db params.scheduleId params.seatNumbers params.heldBy
            (now + params.holdExpiryMinutes.getD DEFAULT_HOLD_EXPIRY_MINUTES) with
        | error msg => simp
        | ok p =>
          simp only [hq, ha, if_false, htx] at h
          simp at h
  · intro db now holdId reason h
    unfold releaseHold at h ⊢
    cases htx : releaseHoldTx db now holdId reason with
    | error msg => simp
    | ok db2 => simp [htx] at h
  · intro db now holdId bookingId h
    unfold convertHoldToBooking at h ⊢
    cases htx : convertHoldToBookingTx db now holdId with
    | error msg => simp
    | ok db2 => simp [htx] at h

/-- Witness for C10: a hold request against an empty database fails and
leaves the database unchanged. -/
theorem holdOps_failure_rollback_witness :
    (holdSeats dbEmpty 0 (reqSeat 1)).1.success = false ∧
    (holdSeats dbEmpty 0 (reqSeat 1)).2 = dbEmpty :=
  ⟨rfl, holdOps_failure_rollback.1 dbEmpty 0 (reqSeat 1) rfl⟩

end HoldQuota
